import Mathlib

/-
Verification of the BISCodeHelpers utility layer.

Shallow embedding of `helpers/connection_management.py` and
`helpers/database_interaction.py`. Database and driver behaviour
(success or failure of `conn.execute`, `engine.connect`, `pd.read_sql`)
is passed in as explicit outcome parameters; the functions are embedded
as pure functions from those outcomes to the trace of observable events
(connection open/close, transaction begin/commit, executed statements,
log lines) together with the Python-level result (normal return value or
raised exception).

`helpers.utils` and `helpers.logged_exceptions` are referenced by the
sources but are not part of the provided source tree; the few members
used (query builders, `MockLogger`, `LoggedDatabaseError`,
`LoggedDataError`) are modelled from the specification and marked as
such in their doc comments.
-/

namespace BISCodeHelpers

/-! ## Python string primitives -/

/-- Model of Python `str.upper()` (ASCII case mapping), applied
characterwise via Lean's `Char.toUpper`. -/
def pyUpper (s : String) : String :=
  ⟨s.data.map Char.toUpper⟩

/-- Model of Python `str.replace(" ", "_")`: the pattern is a single
character, so the replacement acts characterwise. -/
def pyReplaceSpace (s : String) : String :=
  ⟨s.data.map (fun c => if c = ' ' then '_' else c)⟩

/-- Model of the Python substring test `needle in hay`. -/
def pyInStr (needle hay : String) : Bool :=
  decide (needle.data <:+: hay.data)

/-- The driver message fragment tested by the sources:
`"table or view does not exist" in str(e)`. -/
def doesNotExistMsg : String := "table or view does not exist"

/-- The driver message fragment tested by `create_table`:
`"name is already used by an existing object" in str(e)`. -/
def alreadyExistsMsg : String := "name is already used by an existing object"

/-! ## Outcomes supplied by the database driver -/

/-- Outcome of a single `conn.execute(query)` call: normal completion, or a
raised exception carrying the message `str(e)`. -/
inductive ExecOutcome where
  | success
  | failure (msg : String)

/-- Outcome of a `pd.read_sql(query, conn)` call (plus the subsequent result
extraction): a value, a raised `sqlalchemy.exc.DatabaseError` carrying
`str(error)`, or some other raised exception. -/
inductive ReadOutcome (α : Type) where
  | ok (v : α)
  | dbError (msg : String)
  | otherError (msg : String)

/-! ## Observable events -/

/-- Events observable during a lifecycle operation (`truncate_table`,
`drop_table`, `create_table`): the connection scope, transaction control,
executed SQL text, and log lines.  `logError` records the logging side
effect performed when a `LoggedDatabaseError` or `LoggedDataError` is
constructed (modelled from the spec, see `LoggedError`). -/
inductive DbEvent where
  | connOpen
  | connClose
  | txBegin
  | txCommit
  | txRollback
  | execStmt (q : String)
  | logInfo (m : String)
  | logError (m : String)
  deriving Repr, DecidableEq

/-- Modelled from the spec: `helpers.logged_exceptions` (not under `src/`)
provides exception kinds that are "logged then raised": construction
performs the logging side effect, then the raise site propagates the
error (spec section 9, section 6).  In the embedding, raising
`LoggedDatabaseError(logger, msg)` is rendered as a `DbEvent.logError msg`
event followed by an error return value carrying `msg`;
`LoggedDataError` is rendered structurally (see `CreateResult`). -/
def loggedDatabaseErrorEvents (msg : String) : List DbEvent :=
  [DbEvent.logError msg]

/-! ## Connection management (`helpers/connection_management.py`) -/

/-- The engine built by `create_engine`: the connection string together
with the pool configuration passed to the driver
(`pool_size=30, max_overflow=-1`). -/
structure Engine where
  conn_string : String
  pool_size : Nat
  max_overflow : Int
  deriving Repr, DecidableEq

/-- `ConnectionManager(engine)`: holds the engine used to open the
connection. -/
structure ConnectionManager where
  engine : Engine

/-- Events of one connection scope: `acquire` is `__enter__`'s
`self.engine.connect()`, `close` is `__exit__`'s
`self.connection.close()`, and `act` wraps whatever the body of the
`with` block does. -/
inductive ScopeEvent (ε : Type) where
  | acquire
  | close
  | act (e : ε)
  deriving Repr

def ScopeEvent.isAcquire {ε : Type} : ScopeEvent ε → Bool
  | ScopeEvent.acquire => true
  | _ => false

def ScopeEvent.isClose {ε : Type} : ScopeEvent ε → Bool
  | ScopeEvent.close => true
  | _ => false

/-- Semantics of `with ConnectionManager(engine) as conn: body`.
`connectOut` is the outcome of `self.engine.connect()` in `__enter__`;
if it raises, the scope is never entered and nothing is acquired or
closed.  Otherwise the body runs (its events and its outcome — a normal
or early return `Except.ok`, or a raised exception `Except.error` — are
given by `body`), and `__exit__` then closes the connection
unconditionally.  `__exit__` returns `None` (falsy), so a body exception
is never suppressed: the result of the whole `with` statement is the
body's outcome. -/
def ConnectionManager.withScope {ε α : Type} (_cm : ConnectionManager)
    (connectOut : Except String Unit) (body : List ε × Except String α) :
    List (ScopeEvent ε) × Except String α :=
  match connectOut with
  | Except.error e => ([], Except.error e)
  | Except.ok _ =>
      (ScopeEvent.acquire :: body.1.map ScopeEvent.act ++ [ScopeEvent.close], body.2)

/-- `create_engine(username, password, database, logger)`.  Builds the
connection string and the engine, then performs one probe
connect-and-release (`with ConnectionManager(engine): logger.debug(...)`).
`probe` is the outcome of that probe.  Returns the list of messages
written to the supplied logger together with the result: the engine on
success, or the raised `LoggedDatabaseError` message on failure (which,
being a logged exception, is also appended to the logger output — see
`loggedDatabaseErrorEvents`). -/
def create_engine (username password database : String)
    (probe : Except String Unit) : List String × Except String Engine :=
  let conn_string : String :=
    "oracle+cx_oracle://" ++ username ++ ":" ++ password ++ "@" ++ database
  let engine : Engine := ⟨conn_string, 30, -1⟩
  match probe with
  | Except.ok _ => (["Got DB Connection: " ++ database], Except.ok engine)
  | Except.error e =>
      let msg := "failed to connect to DB: " ++ database ++ "\n" ++ e
      ([msg], Except.error msg)

/-! ## Schema inspector (`get_db_table_column_names`, `get_db_table_row_count`)

Each function opens its own connection scope, runs `pd.read_sql`, and
handles `sqlalchemy.exc.DatabaseError`.  If the error message contains
the does-not-exist fragment it executes `return None`; otherwise the
`except` block falls through, the handler completes, and the function
returns `None` implicitly.  Exceptions that are not
`sqlalchemy.exc.DatabaseError` are not caught and propagate.  The result
is `Except.ok` for a normal return (carrying the Python return value)
and `Except.error` for a propagated exception. -/

def get_db_table_column_names (readOut : ReadOutcome (List String)) :
    Except String (Option (List String)) :=
  match readOut with
  | ReadOutcome.ok cols => Except.ok (some cols)
  | ReadOutcome.dbError e =>
      if pyInStr doesNotExistMsg e then
        Except.ok none
      else
        -- handler falls through; the function returns None implicitly
        Except.ok none
  | ReadOutcome.otherError e => Except.error e

def get_db_table_row_count (readOut : ReadOutcome Int) :
    Except String (Option Int) :=
  match readOut with
  | ReadOutcome.ok count => Except.ok (some count)
  | ReadOutcome.dbError e =>
      if pyInStr doesNotExistMsg e then
        Except.ok none
      else
        -- handler falls through; the function returns None implicitly
        Except.ok none
  | ReadOutcome.otherError e => Except.error e

/-! ## Table lifecycle operations -/

/-- Modelled from the spec: `helpers.utils.generate_trunc_db_table_query`
(not under `src/`), a pure string constructor producing the truncate
statement for a table (spec section 4.6).  Only its presence in the
event trace matters to the claims; the exact SQL text is representative. -/
def generate_trunc_db_table_query (table_name : String) : String :=
  "TRUNCATE TABLE " ++ table_name

/-- Modelled from the spec: `helpers.utils.generate_drop_db_table_query`
(not under `src/`), a pure string constructor producing the drop
statement for a table (spec section 4.6). -/
def generate_drop_db_table_query (table_name : String) : String :=
  "DROP TABLE " ++ table_name

/-- Modelled from the spec: `helpers.utils.generate_table_creation_query`
(not under `src/`): builds a CREATE statement from the dataset's column
names and inferred types, with a nullable clause and an optional
DATE_CREATED column (spec sections 4.4, 4.6).  Only its presence in the
event trace matters to the claims; column/type rendering is abstracted
into the table name. -/
def generate_table_creation_query (_data_cols : List String)
    (table_name : String) (_allow_nulls _use_date_created : Bool) : String :=
  "CREATE TABLE " ++ table_name

/-- `truncate_table(table_name, engine, logger)`.  `execOut` is the
outcome of `conn.execute(query)`.  Returns the event trace and `none`
for a normal return, or `some msg` for a raised
`LoggedDatabaseError msg`.  Source shape: open a scope, `trans =
conn.begin()`, try the statement; a failure whose message contains the
does-not-exist fragment is swallowed (`pass`); any other failure raises
`LoggedDatabaseError(logger, str(e))`, which skips the trailing
`trans.commit()`. -/
def truncate_table (table_name : String) (execOut : ExecOutcome) :
    List DbEvent × Option String :=
  let query := generate_trunc_db_table_query table_name
  match execOut with
  | ExecOutcome.success =>
      ([DbEvent.connOpen, DbEvent.txBegin, DbEvent.execStmt query,
        DbEvent.logInfo ("Truncated table " ++ table_name ++ " on DB."),
        DbEvent.txCommit, DbEvent.connClose], none)
  | ExecOutcome.failure e =>
      if pyInStr doesNotExistMsg e then
        ([DbEvent.connOpen, DbEvent.txBegin, DbEvent.txCommit,
          DbEvent.connClose], none)
      else
        ([DbEvent.connOpen, DbEvent.txBegin] ++ loggedDatabaseErrorEvents e
          ++ [DbEvent.connClose], some e)

/-- `drop_table(table_name, engine, logger)`: identical structure to
`truncate_table` with the drop query and its own log line. -/
def drop_table (table_name : String) (execOut : ExecOutcome) :
    List DbEvent × Option String :=
  let query := generate_drop_db_table_query table_name
  match execOut with
  | ExecOutcome.success =>
      ([DbEvent.connOpen, DbEvent.txBegin, DbEvent.execStmt query,
        DbEvent.logInfo ("Dropped table " ++ table_name ++ " on DB."),
        DbEvent.txCommit, DbEvent.connClose], none)
  | ExecOutcome.failure e =>
      if pyInStr doesNotExistMsg e then
        ([DbEvent.connOpen, DbEvent.txBegin, DbEvent.txCommit,
          DbEvent.connClose], none)
      else
        ([DbEvent.connOpen, DbEvent.txBegin] ++ loggedDatabaseErrorEvents e
          ++ [DbEvent.connClose], some e)

/-- Result of `create_table`: a normal return, a raised
`LoggedDatabaseError` carrying `str(e)`, or a raised `LoggedDataError`.
The `LoggedDataError` message is
`"data columns do not match database columns: {diff} for table {table_name}"`;
the embedding carries the formatted pieces (`diff`, the Python set, and
the table name) structurally, since Python's set rendering order is
unspecified. -/
inductive CreateResult where
  | ok
  | raisedDbError (msg : String)
  | raisedDataError (diff : Finset String) (table_name : String)
  deriving DecidableEq

/-- Python truthiness of the `Optional[list]` returned by
`get_db_table_column_names`: `not db_col_names` is true for `None` and
for an empty list. -/
def pyFalsy : Option (List String) → Bool
  | none => true
  | some [] => true
  | some (_ :: _) => false

/-- `create_table(data_results, table_name, engine, allow_nulls,
use_date_created, logger)`.  `data_cols` is `list(data_results.columns)`;
`db_col_names` is the value returned by
`get_db_table_column_names(table_name, engine)` (that call opens and
closes its own scope and is embedded separately); `execOut` is the
outcome of `conn.execute(create_query)` in the creation branch.

If `not db_col_names` (table absent, i.e. `None` or an empty list):
build the creation query and execute it in one transaction; a failure
whose message says the name is already used is logged as informational
and swallowed (commit still runs); any other failure raises
`LoggedDatabaseError` (skipping the commit).  Otherwise compare the
uppercased existing names with the normalized dataset names
(upper-cased, spaces replaced by underscores, `DATE_CREATED` appended
when requested) as sets; on mismatch raise `LoggedDataError` carrying
`diff = (union - new) ∪ (union - db)`; no statement is executed in this
branch. -/
def create_table (data_cols : List String) (table_name : String)
    (allow_nulls use_date_created : Bool)
    (db_col_names : Option (List String)) (execOut : ExecOutcome) :
    List DbEvent × CreateResult :=
  if pyFalsy db_col_names then
    let create_query :=
      generate_table_creation_query data_cols table_name allow_nulls use_date_created
    match execOut with
    | ExecOutcome.success =>
        ([DbEvent.connOpen, DbEvent.txBegin, DbEvent.execStmt create_query,
          DbEvent.logInfo ("Created table " ++ table_name ++ " on DB."),
          DbEvent.txCommit, DbEvent.connClose], CreateResult.ok)
    | ExecOutcome.failure e =>
        if pyInStr alreadyExistsMsg e then
          ([DbEvent.connOpen, DbEvent.txBegin,
            DbEvent.logInfo ("Table " ++ table_name ++ " already exists on DB."),
            DbEvent.txCommit, DbEvent.connClose], CreateResult.ok)
        else
          ([DbEvent.connOpen, DbEvent.txBegin] ++ loggedDatabaseErrorEvents e
            ++ [DbEvent.connClose], CreateResult.raisedDbError e)
  else
    let db_u : List String := (db_col_names.getD []).map pyUpper
    let new_data_col_names : List String :=
      data_cols.map (fun x => pyReplaceSpace (pyUpper x))
        ++ (if use_date_created then ["DATE_CREATED"] else [])
    let db_col_names_set : Finset String := db_u.toFinset
    let new_data_col_names_set : Finset String := new_data_col_names.toFinset
    if db_col_names_set ≠ new_data_col_names_set then
      let union : Finset String := db_col_names_set ∪ new_data_col_names_set
      let diff : Finset String :=
        (union \ new_data_col_names_set) ∪ (union \ db_col_names_set)
      ([], CreateResult.raisedDataError diff table_name)
    else
      ([], CreateResult.ok)

/-! ## Bulk uploader (`upload_data_to_table`) -/

/-- A pandas DataFrame, abstracted to what the sources use: the ordered
column names, the number of rows (`len(table_data.index)`), and the cell
contents. -/
structure DataFrame where
  cols : List String
  nrows : Nat
  entry : String → Nat → String

/-- `table_data["DATE_CREATED"] = date_str` with a scalar right-hand
side: sets (or overwrites) the column, broadcasting the single value to
every row, mutating the frame in place. -/
def DataFrame.setCol (df : DataFrame) (name v : String) : DataFrame :=
  { cols := if name ∈ df.cols then df.cols else df.cols ++ [name]
    nrows := df.nrows
    entry := fun c i => if c = name then v else df.entry c i }

/-- The SQL date-literal expression
`"to_date('{date_created}','dd/mon/yy hh24:mi:ss')"` built by
`upload_data_to_table` (quote characters written as `\x27`). -/
def date_literal (date_created : String) : String :=
  "to_date(\x27" ++ date_created ++ "\x27,\x27dd/mon/yy hh24:mi:ss\x27)"

/-- Events observable during `upload_data_to_table`: the single
connection scope, per-batch transaction control, the insert statement
for the half-open row range `[lo, hi)` (`notice` is the printed progress
line with the row numbers it displays), and the final log line. -/
inductive UEvent where
  | connOpen
  | connClose
  | txBegin
  | txCommit
  | txRollback
  | insert (lo hi : Nat)
  | notice (a b : Nat)
  | info (m : String)
  deriving Repr, DecidableEq

def UEvent.isConnOpen : UEvent → Bool
  | UEvent.connOpen => true
  | _ => false

def UEvent.isConnClose : UEvent → Bool
  | UEvent.connClose => true
  | _ => false

def UEvent.isInsert : UEvent → Bool
  | UEvent.insert _ _ => true
  | _ => false

/-- Events the upload loop itself can produce (everything except the
connection scope and the final log line). -/
def UEvent.isBatchEvent : UEvent → Bool
  | UEvent.txBegin => true
  | UEvent.txCommit => true
  | UEvent.insert _ _ => true
  | UEvent.notice _ _ => true
  | _ => false

/-- The row slices `generate_insert_query` is called on, read off the
source loop: while `(iterator_index + 1) * upload_partition_size <
data_num_records`, the slice `[i*B, (i+1)*B)` is inserted and `i`
advances; after the loop one final insert covers `[i*B, N)`.  For
`B = 0` and `N > 0` the Python loop does not terminate, so the
embedding requires `0 < B`. -/
def uploadLoop (B N : Nat) (hB : 0 < B) (i : Nat) : List (Nat × Nat) :=
  if _h : (i + 1) * B < N then
    (i * B, (i + 1) * B) :: uploadLoop B N hB (i + 1)
  else
    [(i * B, N)]
termination_by N - i * B
decreasing_by
  have h1 : i * B + B = (i + 1) * B := by ring
  omega

/-- The same loop with its event trace and failure behaviour.
`failAt k = true` means `conn.execute` raises on the `k`-th insert
statement; the `insert` event records the attempted statement, after
which the exception propagates (no commit, loop abandoned).  The
returned flag is `true` when the loop ran to completion.  The printed
progress line shows `i*B` and `(i+1)*B - 1` inside the loop, and `i*B`
and `N` for the final slice. -/
def uploadLoopRun (B N : Nat) (hB : 0 < B) (failAt : Nat → Bool) (i : Nat) :
    List UEvent × Bool :=
  if _h : (i + 1) * B < N then
    if failAt i then
      ([UEvent.notice (i * B) ((i + 1) * B - 1), UEvent.txBegin,
        UEvent.insert (i * B) ((i + 1) * B)], false)
    else
      let rest := uploadLoopRun B N hB failAt (i + 1)
      ([UEvent.notice (i * B) ((i + 1) * B - 1), UEvent.txBegin,
        UEvent.insert (i * B) ((i + 1) * B), UEvent.txCommit] ++ rest.1, rest.2)
  else
    if failAt i then
      ([UEvent.notice (i * B) N, UEvent.txBegin, UEvent.insert (i * B) N], false)
    else
      ([UEvent.notice (i * B) N, UEvent.txBegin, UEvent.insert (i * B) N,
        UEvent.txCommit], true)
termination_by N - i * B
decreasing_by
  have h1 : i * B + B = (i + 1) * B := by ring
  omega

/-- The batch slices of a full upload (loop started at index 0). -/
def uploadBatches (B N : Nat) (hB : 0 < B) : List (Nat × Nat) :=
  uploadLoop B N hB 0

/-- Result of `upload_data_to_table`: the event trace, the caller's
DataFrame as it stands after the call (the `DATE_CREATED` assignment
mutates it in place), and whether the call completed (rather than
propagating an insert failure). -/
structure UploadResult where
  trace : List UEvent
  table_data : DataFrame
  completed : Bool

/-- `upload_data_to_table(table_data, upload_partition_size, table_name,
engine, use_date_created, logger)`.  `now` is the output of
`time.strftime("%d/%b/%y %H:%M:%S")`.  The row count is read, the
timestamp literal is computed once, the caller's frame is stamped in
place when `use_date_created` is set, and then a single connection scope
runs every batch; on success the completion message is logged after the
scope closes. -/
def upload_data_to_table (table_data : DataFrame) (upload_partition_size : Nat)
    (hB : 0 < upload_partition_size) (now : String) (use_date_created : Bool)
    (failAt : Nat → Bool) : UploadResult :=
  let data_num_records := table_data.nrows
  let date_created := pyUpper now
  let date_str := date_literal date_created
  let table_data1 :=
    if use_date_created then table_data.setCol "DATE_CREATED" date_str
    else table_data
  let r := uploadLoopRun upload_partition_size data_num_records hB failAt 0
  { trace := UEvent.connOpen :: r.1 ++ [UEvent.connClose]
      ++ (if r.2 then [UEvent.info "Completed upload of data to table."] else [])
    table_data := table_data1
    completed := r.2 }

/-- The events one successfully committed batch contributes to the
trace: the printed range (which ends at `hi - 1` for a full batch and at
`N` for the final slice, recognisable as `hi = N`), then begin, insert,
commit. -/
def batchEvents (N : Nat) (p : Nat × Nat) : List UEvent :=
  if p.2 < N then
    [UEvent.notice p.1 (p.2 - 1), UEvent.txBegin, UEvent.insert p.1 p.2,
     UEvent.txCommit]
  else
    [UEvent.notice p.1 p.2, UEvent.txBegin, UEvent.insert p.1 p.2,
     UEvent.txCommit]

/-- The events contributed by full (in-loop) batch `j`. -/
def fullBatchEvents (B j : Nat) : List UEvent :=
  [UEvent.notice (j * B) ((j + 1) * B - 1), UEvent.txBegin,
   UEvent.insert (j * B) ((j + 1) * B), UEvent.txCommit]

/-! ## Helper lemmas -/

/-- ASCII uppercasing is idempotent. -/
theorem toUpper_toUpper (c : Char) : c.toUpper.toUpper = c.toUpper := by
  unfold Char.toUpper
  by_cases h : c.toNat ≥ 97 ∧ c.toNat ≤ 122
  · simp only [if_pos h]
    obtain ⟨h1, h2⟩ := h
    set n := c.toNat with hn
    clear_value n
    interval_cases n <;> decide
  · simp only [if_neg h]

/-- The characterwise space-to-underscore step of the dataset
normalization is invariant under a further `upper()`. -/
theorem toUpper_space_step (c : Char) :
    Char.toUpper (if Char.toUpper c = ' ' then '_' else Char.toUpper c) =
      (if Char.toUpper c = ' ' then '_' else Char.toUpper c) := by
  by_cases h : Char.toUpper c = ' '
  · simp only [if_pos h]
    decide
  · simp only [if_neg h]
    exact toUpper_toUpper c

/-- A name already normalized by `x.upper().replace(" ", "_")` is a fixed
point of `pyUpper`. -/
theorem pyUpper_normalized (s : String) :
    pyUpper (pyReplaceSpace (pyUpper s)) = pyReplaceSpace (pyUpper s) := by
  unfold pyUpper pyReplaceSpace
  apply congrArg String.mk
  simp only [List.map_map]
  apply List.map_congr_left
  intro c _
  exact toUpper_space_step c

/-! ## Claim C7 -/

/-- Claim C7 (confirmed): for every engine and every exit path of the
`ConnectionManager` scope (normal return, early return, or thrown
error), entering the scope acquires exactly one Connection from the
engine and leaving the scope closes that Connection exactly once.  The
body's outcome (`Except.ok` for a normal or early return, `Except.error`
for a raised exception) is passed through unchanged. -/
theorem claim_C7_connection_scope (cm : ConnectionManager) (ε α : Type)
    (bodyEvents : List ε) (outcome : Except String α) :
    (cm.withScope (Except.ok ()) (bodyEvents, outcome)).1.countP ScopeEvent.isAcquire = 1 ∧
    (cm.withScope (Except.ok ()) (bodyEvents, outcome)).1.countP ScopeEvent.isClose = 1 ∧
    (cm.withScope (Except.ok ()) (bodyEvents, outcome)).1.head? = some ScopeEvent.acquire ∧
    (cm.withScope (Except.ok ()) (bodyEvents, outcome)).1.getLast? = some ScopeEvent.close ∧
    (cm.withScope (Except.ok ()) (bodyEvents, outcome)).2 = outcome := by
  refine ⟨?_, ?_, ?_, ?_, rfl⟩
  · simp [ConnectionManager.withScope, List.countP_cons, List.countP_append,
      List.countP_map, ScopeEvent.isAcquire, Function.comp_def]
  · simp [ConnectionManager.withScope, List.countP_cons, List.countP_append,
      List.countP_map, ScopeEvent.isClose, Function.comp_def]
  · simp [ConnectionManager.withScope]
  · show ((ScopeEvent.acquire :: bodyEvents.map ScopeEvent.act) ++
      [ScopeEvent.close]).getLast? = some ScopeEvent.close
    exact List.getLast?_concat _

/-! ## Claim C10 -/

/-- Claim C10 (confirmed): `ConnectionManager` never suppresses an
exception: for every exception raised inside the scope body, `__exit__`
returns a falsy value, so the connection is still closed and the same
exception propagates to the caller of the with-block. -/
theorem claim_C10_exceptions_propagate (cm : ConnectionManager) (ε α : Type)
    (bodyEvents : List ε) (msg : String) :
    (cm.withScope (Except.ok ()) (bodyEvents, (Except.error msg : Except String α))).2 =
      Except.error msg ∧
    ScopeEvent.close ∈
      (cm.withScope (Except.ok ()) (bodyEvents, (Except.error msg : Except String α))).1 := by
  refine ⟨rfl, ?_⟩
  simp [ConnectionManager.withScope]

/-! ## Claim C8 -/

/-- Claim C8 (confirmed): if the probe connect-and-release of
`create_engine` fails for any reason, the call fails with a
`LoggedDatabaseError` whose message has already been written to the
supplied logger and carries both the database address and the underlying
cause (shown by the exact message format, and by explicit substring
facts); on probe success the engine is returned.  The logged-exception
class itself is modelled from the spec (see `loggedDatabaseErrorEvents`). -/
theorem claim_C8_create_engine (username password database cause : String) :
    create_engine username password database (Except.error cause) =
      (["failed to connect to DB: " ++ database ++ "\n" ++ cause],
       Except.error ("failed to connect to DB: " ++ database ++ "\n" ++ cause)) ∧
    database.data <:+: ("failed to connect to DB: " ++ database ++ "\n" ++ cause).data ∧
    cause.data <:+: ("failed to connect to DB: " ++ database ++ "\n" ++ cause).data ∧
    create_engine username password database (Except.ok ()) =
      (["Got DB Connection: " ++ database],
       Except.ok ⟨"oracle+cx_oracle://" ++ username ++ ":" ++ password ++ "@" ++ database,
         30, -1⟩) := by
  refine ⟨rfl, ?_, ?_, rfl⟩
  · exact ⟨"failed to connect to DB: ".data, ("\n" ++ cause).data,
      by simp [String.data_append]⟩
  · exact ⟨("failed to connect to DB: " ++ database ++ "\n").data, [],
      by simp [String.data_append]⟩

/-! ## Claim C3 -/

/-- Claim C3 (counterexample): a `DatabaseError` whose message does not
contain the does-not-exist fragment does NOT propagate to the caller:
`get_db_table_column_names` swallows it and returns `None` (the `except`
handler falls through and the function returns implicitly). -/
theorem claim_C3_counterexample :
    get_db_table_column_names
        (ReadOutcome.dbError "ORA-00001: unique constraint violated") =
      Except.ok none ∧
    get_db_table_column_names
        (ReadOutcome.dbError "ORA-00001: unique constraint violated") ≠
      Except.error "ORA-00001: unique constraint violated" := by
  constructor
  · simp [get_db_table_column_names, ite_self]
  · simp [get_db_table_column_names, ite_self]

/-- Claim C3 (amended): `get_db_table_column_names` returns the ordered
list of column names on success, and `None` for EVERY
`sqlalchemy.exc.DatabaseError` — both when the message indicates the
table or view does not exist and for any other database error (the
handler falls through and the function returns `None` implicitly).  Only
exceptions that are not `DatabaseError` propagate to the caller,
unlogged.  `get_db_table_row_count` behaves the same way with the
integer count. -/
theorem claim_C3_schema_inspector (cols : List String) (count : Int)
    (dbMsg otherMsg : String) :
    get_db_table_column_names (ReadOutcome.ok cols) = Except.ok (some cols) ∧
    get_db_table_column_names (ReadOutcome.dbError dbMsg) = Except.ok none ∧
    get_db_table_column_names (ReadOutcome.otherError otherMsg) = Except.error otherMsg ∧
    get_db_table_row_count (ReadOutcome.ok count) = Except.ok (some count) ∧
    get_db_table_row_count (ReadOutcome.dbError dbMsg) = Except.ok none ∧
    get_db_table_row_count (ReadOutcome.otherError otherMsg) = Except.error otherMsg := by
  refine ⟨rfl, ?_, rfl, rfl, ?_, rfl⟩
  · simp [get_db_table_column_names, ite_self]
  · simp [get_db_table_row_count, ite_self]

/-! ## Claim C2 -/

/-- Claim C2 (counterexample): on a failure whose message does not
indicate non-existence, `truncate_table` raises `LoggedDatabaseError`
and the transaction is NOT committed — the `raise` inside the `except`
block skips the trailing `trans.commit()`. -/
theorem claim_C2_counterexample :
    truncate_table "MY_TABLE" (ExecOutcome.failure "ORA-00060: deadlock detected") =
      ([DbEvent.connOpen, DbEvent.txBegin,
        DbEvent.logError "ORA-00060: deadlock detected", DbEvent.connClose],
       some "ORA-00060: deadlock detected") ∧
    DbEvent.txCommit ∉
      (truncate_table "MY_TABLE"
        (ExecOutcome.failure "ORA-00060: deadlock detected")).1 := by
  have h : pyInStr doesNotExistMsg "ORA-00060: deadlock detected" = false := by decide
  constructor
  · simp [truncate_table, loggedDatabaseErrorEvents, h]
  · simp [truncate_table, loggedDatabaseErrorEvents, h]

/-- Claim C2 (amended): for `truncate_table` and `drop_table`, a failure
whose message contains the does-not-exist fragment is swallowed and the
call returns normally (and the transaction is committed); any other
failure is logged and raised as a `LoggedDatabaseError`, and on that
path the transaction is NOT committed (the raise skips the trailing
commit). -/
theorem claim_C2_truncate_drop (table_name e : String) :
    (pyInStr doesNotExistMsg e = true →
      truncate_table table_name (ExecOutcome.failure e) =
        ([DbEvent.connOpen, DbEvent.txBegin, DbEvent.txCommit, DbEvent.connClose],
         none) ∧
      drop_table table_name (ExecOutcome.failure e) =
        ([DbEvent.connOpen, DbEvent.txBegin, DbEvent.txCommit, DbEvent.connClose],
         none)) ∧
    (pyInStr doesNotExistMsg e = false →
      truncate_table table_name (ExecOutcome.failure e) =
        ([DbEvent.connOpen, DbEvent.txBegin, DbEvent.logError e, DbEvent.connClose],
         some e) ∧
      DbEvent.txCommit ∉ (truncate_table table_name (ExecOutcome.failure e)).1 ∧
      drop_table table_name (ExecOutcome.failure e) =
        ([DbEvent.connOpen, DbEvent.txBegin, DbEvent.logError e, DbEvent.connClose],
         some e) ∧
      DbEvent.txCommit ∉ (drop_table table_name (ExecOutcome.failure e)).1) := by
  constructor
  · intro h
    exact ⟨by simp [truncate_table, h], by simp [drop_table, h]⟩
  · intro h
    refine ⟨by simp [truncate_table, loggedDatabaseErrorEvents, h], ?_,
      by simp [drop_table, loggedDatabaseErrorEvents, h], ?_⟩
    · simp [truncate_table, loggedDatabaseErrorEvents, h]
    · simp [drop_table, loggedDatabaseErrorEvents, h]

/-- Witness for claim C2's theorem at a concrete input: the swallowed
non-existence branch on a real driver message. -/
theorem claim_C2_witness :
    pyInStr doesNotExistMsg "ORA-00942: table or view does not exist" = true ∧
    truncate_table "T1" (ExecOutcome.failure "ORA-00942: table or view does not exist") =
      ([DbEvent.connOpen, DbEvent.txBegin, DbEvent.txCommit, DbEvent.connClose],
       none) :=
  ⟨by decide,
   (claim_C2_truncate_drop "T1" "ORA-00942: table or view does not exist").1
     (by decide) |>.1⟩

/-! ## Claim C9 -/

/-- Claim C9 (confirmed): with `use_date_created=True`,
`upload_data_to_table` mutates the caller-supplied DataFrame in place
before partitioning, adding a `DATE_CREATED` column holding the single
timestamp-literal string (computed once and identical for all rows);
with `use_date_created=False` the caller's DataFrame is left unchanged.
In the embedding, `UploadResult.table_data` is the caller-visible state
of the frame after the call. -/
theorem claim_C9_date_created_frame_effect (df : DataFrame) (B : Nat)
    (hB : 0 < B) (now : String) (failAt : Nat → Bool) :
    (upload_data_to_table df B hB now true failAt).table_data =
      df.setCol "DATE_CREATED" (date_literal (pyUpper now)) ∧
    (∀ i : Nat,
      (upload_data_to_table df B hB now true failAt).table_data.entry "DATE_CREATED" i =
        date_literal (pyUpper now)) ∧
    "DATE_CREATED" ∈ (upload_data_to_table df B hB now true failAt).table_data.cols ∧
    (upload_data_to_table df B hB now false failAt).table_data = df := by
  refine ⟨rfl, ?_, ?_, rfl⟩
  · intro i
    simp [upload_data_to_table, DataFrame.setCol]
  · show "DATE_CREATED" ∈ (df.setCol "DATE_CREATED" (date_literal (pyUpper now))).cols
    unfold DataFrame.setCol
    by_cases h : "DATE_CREATED" ∈ df.cols
    · simp [h]
    · simp [h]

/-- Witness for claim C9's theorem at a concrete input. -/
theorem claim_C9_witness :
    (0 : Nat) < 1 ∧
    (upload_data_to_table ⟨["A"], 2, fun _ _ => "v"⟩ 1 (by decide) "x"
      false (fun _ => false)).table_data = ⟨["A"], 2, fun _ _ => "v"⟩ :=
  ⟨by decide,
   (claim_C9_date_created_frame_effect ⟨["A"], 2, fun _ _ => "v"⟩ 1 (by decide) "x"
     (fun _ => false)).2.2.2⟩

/-! ## Claim C4 -/

/-- The `diff` computed by `create_table` from the union is the
symmetric difference of the two column-name sets. -/
theorem union_sdiff_eq_symmDiff (s t : Finset String) :
    (s ∪ t) \ t ∪ (s ∪ t) \ s = symmDiff s t := by
  rw [Finset.union_sdiff_right, Finset.union_comm s t, Finset.union_sdiff_right,
    symmDiff_def, Finset.sup_eq_union]

/-- Claim C4 (confirmed): when the table exists (a non-empty column list
comes back) and the normalized existing column-name set differs from the
normalized dataset column-name set (uppercased; dataset names with
spaces replaced by underscores; `DATE_CREATED` appended when requested),
`create_table` raises a `LoggedDataError` whose listed difference equals
the symmetric set difference of the two sets, and no DDL statement is
executed in that branch (the event trace is empty). -/
theorem claim_C4_schema_mismatch (data_cols : List String) (table_name : String)
    (allow_nulls use_date_created : Bool) (execOut : ExecOutcome)
    (l : List String) (hne : l ≠ [])
    (hdiff : (l.map pyUpper).toFinset ≠
      (data_cols.map (fun x => pyReplaceSpace (pyUpper x))
        ++ (if use_date_created then ["DATE_CREATED"] else [])).toFinset) :
    create_table data_cols table_name allow_nulls use_date_created (some l) execOut =
      ([], CreateResult.raisedDataError
        (symmDiff (l.map pyUpper).toFinset
          ((data_cols.map (fun x => pyReplaceSpace (pyUpper x))
            ++ (if use_date_created then ["DATE_CREATED"] else [])).toFinset))
        table_name) := by
  obtain ⟨a, t, rfl⟩ : ∃ a t, l = a :: t := by
    cases l with
    | nil => exact absurd rfl hne
    | cons a t => exact ⟨a, t, rfl⟩
  have hfal : pyFalsy (some (a :: t)) = false := rfl
  simp only [create_table, hfal, Bool.false_eq_true, if_false, Option.getD_some]
  rw [if_pos hdiff, union_sdiff_eq_symmDiff]

/-- Witness for claim C4's theorem at a concrete input. -/
theorem claim_C4_witness :
    (["B"] : List String) ≠ [] ∧
    (["B"].map pyUpper).toFinset ≠
      ((["a"].map (fun x => pyReplaceSpace (pyUpper x))
        ++ (if false then ["DATE_CREATED"] else [])).toFinset) ∧
    create_table ["a"] "T3" true false (some ["B"]) ExecOutcome.success =
      ([], CreateResult.raisedDataError
        (symmDiff (["B"].map pyUpper).toFinset
          ((["a"].map (fun x => pyReplaceSpace (pyUpper x))
            ++ (if false then ["DATE_CREATED"] else [])).toFinset))
        "T3") :=
  ⟨by decide, by decide,
   claim_C4_schema_mismatch ["a"] "T3" true false ExecOutcome.success ["B"]
     (by decide) (by decide)⟩

/-! ## Claim C5 -/

/-- Claim C5 (confirmed): calling `create_table` twice in a row with the
same dataset and table name is idempotent.  Assuming the first call
created the table with exactly the dataset's normalized columns (so the
second call's `get_db_table_column_names` returns that list), the second
call neither raises an error nor executes any table-creating DDL: the
normalized sets coincide, the mismatch branch is not taken, and the
event trace is empty. -/
theorem claim_C5_create_idempotent (data_cols : List String) (table_name : String)
    (allow_nulls use_date_created : Bool) (execOut : ExecOutcome)
    (created : List String)
    (hne : data_cols ≠ [])
    (hcr : created = data_cols.map (fun x => pyReplaceSpace (pyUpper x))
      ++ (if use_date_created then ["DATE_CREATED"] else [])) :
    create_table data_cols table_name allow_nulls use_date_created
      (some created) execOut = ([], CreateResult.ok) := by
  have hmap : created.map pyUpper = created := by
    rw [hcr, List.map_append, List.map_map]
    congr 1
    · apply List.map_congr_left
      intro x _
      exact pyUpper_normalized x
    · cases use_date_created
      · simp
      · show List.map pyUpper ["DATE_CREATED"] = ["DATE_CREATED"]
        decide
  have hcne : created ≠ [] := by
    rw [hcr]
    cases data_cols with
    | nil => exact absurd rfl hne
    | cons a t => simp
  have hfal : pyFalsy (some created) = false := by
    cases created with
    | nil => exact absurd rfl hcne
    | cons a t => rfl
  have hsets : (created.map pyUpper).toFinset =
      (data_cols.map (fun x => pyReplaceSpace (pyUpper x))
        ++ (if use_date_created then ["DATE_CREATED"] else [])).toFinset := by
    rw [hmap, hcr]
  simp only [create_table, hfal, Bool.false_eq_true, if_false, Option.getD_some]
  rw [if_neg (fun hab => hab hsets)]

/-- Witness for claim C5's theorem at a concrete input. -/
theorem claim_C5_witness :
    (["col a"] : List String) ≠ [] ∧
    (["COL_A", "DATE_CREATED"] : List String) =
      ["col a"].map (fun x => pyReplaceSpace (pyUpper x))
        ++ (if true then ["DATE_CREATED"] else []) ∧
    create_table ["col a"] "T2" true true (some ["COL_A", "DATE_CREATED"])
      ExecOutcome.success = ([], CreateResult.ok) :=
  ⟨by decide, by decide,
   claim_C5_create_idempotent ["col a"] "T2" true true ExecOutcome.success
     ["COL_A", "DATE_CREATED"] (by decide) (by decide)⟩

/-! ## Loop characterization lemmas -/

/-- Closed form of the upload loop's slice list, with the row count
presented as `q * B + r`, `r < B`.  Writing
`X := q + (if r = 0 then 0 else 1)` (the total number of statements for
a positive row count), the loop starting at index `i` produces the full
slices for indices `i, ..., max X 1 - 2` followed by the tail slice. -/
theorem uploadLoop_char (B q r : Nat) (hB : 0 < B) (hr : r < B) (i : Nat) :
    uploadLoop B (q * B + r) hB i =
      ((List.range' i (max (q + (if r = 0 then 0 else 1)) 1 - 1 - i)).map
          (fun j => (j * B, (j + 1) * B)))
        ++ [((max i (max (q + (if r = 0 then 0 else 1)) 1 - 1)) * B, q * B + r)] := by
  induction i using uploadLoop.induct B (q * B + r) hB with
  | case1 i h ih =>
      have hiq : i + 2 ≤ q + (if r = 0 then 0 else 1) := by
        by_cases hr0 : r = 0
        · have hlt : (i + 1) * B < q * B := by omega
          have : i + 1 < q := by
            have := (mul_lt_mul_right hB).mp hlt
            omega
          omega
        · have hlt : (i + 1) * B < (q + 1) * B := by
            have : (q + 1) * B = q * B + B := by ring
            omega
          have : i + 1 < q + 1 := (mul_lt_mul_right hB).mp hlt
          simp [hr0]
          omega
      rw [uploadLoop]
      rw [dif_pos h, ih]
      have hT : max (q + (if r = 0 then 0 else 1)) 1 - 1 - i =
          (max (q + (if r = 0 then 0 else 1)) 1 - 1 - (i + 1)) + 1 := by omega
      have hm1 : max i (max (q + (if r = 0 then 0 else 1)) 1 - 1) =
          max (q + (if r = 0 then 0 else 1)) 1 - 1 := by omega
      have hm2 : max (i + 1) (max (q + (if r = 0 then 0 else 1)) 1 - 1) =
          max (q + (if r = 0 then 0 else 1)) 1 - 1 := by omega
      rw [hT, List.range'_succ, hm1, hm2]
      simp
  | case2 i h =>
      have hiq : q + (if r = 0 then 0 else 1) ≤ i + 1 := by
        by_cases hr0 : r = 0
        · have hle : q * B ≤ (i + 1) * B := by omega
          have : q ≤ i + 1 := le_of_mul_le_mul_right hle hB
          simp [hr0]
          omega
        · have hlt : q * B < (i + 1) * B := by omega
          have : q < i + 1 := (mul_lt_mul_right hB).mp hlt
          simp [hr0]
          omega
      rw [uploadLoop, dif_neg h]
      have hT : max (q + (if r = 0 then 0 else 1)) 1 - 1 - i = 0 := by omega
      have hm1 : max i (max (q + (if r = 0 then 0 else 1)) 1 - 1) = i := by omega
      rw [hT, hm1]
      simp

/-- Every event emitted by the upload loop is a batch event (transaction
control, insert, or progress notice) — never a connection, rollback, or
final-log event. -/
theorem uploadLoopRun_events (B N : Nat) (hB : 0 < B) (failAt : Nat → Bool) (i : Nat) :
    ∀ e ∈ (uploadLoopRun B N hB failAt i).1, e.isBatchEvent = true := by
  induction i using uploadLoopRun.induct B N hB failAt with
  | case1 i h hfail =>
      rw [uploadLoopRun, dif_pos h, if_pos hfail]
      intro e he
      simp only [List.mem_cons, List.mem_singleton, List.not_mem_nil] at he
      rcases he with rfl | rfl | rfl | he
      · rfl
      · rfl
      · rfl
      · cases he
  | case2 i h hfail ih =>
      rw [uploadLoopRun, dif_pos h, if_neg hfail]
      intro e he
      simp only [List.cons_append, List.nil_append, List.mem_cons] at he
      rcases he with rfl | rfl | rfl | rfl | he
      · rfl
      · rfl
      · rfl
      · rfl
      · exact ih e he
  | case3 i h hfail =>
      rw [uploadLoopRun, dif_neg h, if_pos hfail]
      intro e he
      simp only [List.mem_cons, List.not_mem_nil] at he
      rcases he with rfl | rfl | rfl | he
      · rfl
      · rfl
      · rfl
      · cases he
  | case4 i h hfail =>
      rw [uploadLoopRun, dif_neg h, if_neg hfail]
      intro e he
      simp only [List.mem_cons, List.not_mem_nil] at he
      rcases he with rfl | rfl | rfl | rfl | he
      · rfl
      · rfl
      · rfl
      · rfl
      · cases he

/-- A batch event is not a connection event, not a rollback, and not a
final-log event. -/
theorem batchEvent_not_conn (e : UEvent) (h : e.isBatchEvent = true) :
    e.isConnOpen = false ∧ e.isConnClose = false ∧ e ≠ UEvent.txRollback ∧
      ∀ m, e ≠ UEvent.info m := by
  cases e <;> simp_all [UEvent.isBatchEvent, UEvent.isConnOpen, UEvent.isConnClose]

/-- When no batch fails, the loop trace is exactly the concatenation of
one committed begin/insert/commit block per slice, and the loop
completes. -/
theorem uploadLoopRun_ok (B N : Nat) (hB : 0 < B) (failAt : Nat → Bool)
    (hf : ∀ j, failAt j = false) (i : Nat) :
    uploadLoopRun B N hB failAt i =
      ((uploadLoop B N hB i).flatMap (batchEvents N), true) := by
  induction i using uploadLoopRun.induct B N hB failAt with
  | case1 i h hfail => rw [hf i] at hfail; cases hfail
  | case2 i h hfail ih =>
      rw [uploadLoopRun, dif_pos h, if_neg hfail, ih]
      conv_rhs => rw [uploadLoop, dif_pos h]
      simp [batchEvents, h]
  | case3 i h hfail => rw [hf i] at hfail; cases hfail
  | case4 i h hfail =>
      rw [uploadLoopRun, dif_neg h, if_neg hfail]
      conv_rhs => rw [uploadLoop, dif_neg h]
      simp [batchEvents]

/-- When the first failing batch is `k` (and index `k` is reached by the
loop), the trace consists of the fully committed blocks for batches
`i, ..., k - 1` followed by the begin and attempted insert of batch `k`,
with no commit for it, and the loop reports failure. -/
theorem uploadLoopRun_fail (B N : Nat) (hB : 0 < B) (failAt : Nat → Bool) (k : Nat)
    (hk : failAt k = true) (hprior : ∀ j, j < k → failAt j = false) (i : Nat) :
    i ≤ k → (i = k ∨ k * B < N) →
    uploadLoopRun B N hB failAt i =
      (((List.range' i (k - i)).flatMap (fullBatchEvents B))
        ++ [UEvent.notice (k * B) (if (k + 1) * B < N then (k + 1) * B - 1 else N),
            UEvent.txBegin, UEvent.insert (k * B) (min ((k + 1) * B) N)], false) := by
  induction i using uploadLoopRun.induct B N hB failAt with
  | case1 i h hfail =>
      intro hik _hreach
      have hik2 : i = k := by
        by_contra hne
        rw [hprior i (lt_of_le_of_ne hik hne)] at hfail
        cases hfail
      subst hik2
      rw [uploadLoopRun, dif_pos h, if_pos hfail, Nat.sub_self]
      simp [if_pos h, Nat.min_eq_left (le_of_lt h)]
  | case2 i h hfail ih =>
      intro hik hreach
      have hine : i ≠ k := by
        intro hik2
        rw [← hik2] at hk
        exact hfail hk
      have hilt : i < k := lt_of_le_of_ne hik hine
      have hkB : k * B < N := by
        rcases hreach with h1 | h1
        · exact absurd h1 hine
        · exact h1
      rw [uploadLoopRun, dif_pos h, if_neg hfail, ih (by omega) (Or.inr hkB)]
      have hki : k - i = (k - (i + 1)) + 1 := by omega
      rw [hki, List.range'_succ]
      simp [fullBatchEvents]
  | case3 i h hfail =>
      intro hik _hreach
      have hik2 : i = k := by
        by_contra hne
        rw [hprior i (lt_of_le_of_ne hik hne)] at hfail
        cases hfail
      subst hik2
      have h3 : N ≤ (i + 1) * B := by omega
      rw [uploadLoopRun, dif_neg h, if_pos hfail, Nat.sub_self]
      simp [if_neg h, Nat.min_eq_right h3]
  | case4 i h hfail =>
      intro hik hreach
      have hine : i ≠ k := by
        intro hik2
        rw [← hik2] at hk
        exact hfail hk
      have hilt : i < k := lt_of_le_of_ne hik hine
      have hkB : k * B < N := by
        rcases hreach with h1 | h1
        · exact absurd h1 hine
        · exact h1
      exfalso
      have hle : (i + 1) * B ≤ k * B := Nat.mul_le_mul_right B (by omega)
      omega

/-- Counting on a flat map whose pieces each contain exactly one
matching element. -/
theorem countP_flatMap_singleton {α β : Type} (l : List α) (f : α → List β)
    (p : β → Bool) (h : ∀ a ∈ l, (f a).countP p = 1) :
    (l.flatMap f).countP p = l.length := by
  induction l with
  | nil => rfl
  | cons a t ih =>
      rw [List.flatMap_cons, List.countP_append, h a (List.mem_cons_self a t),
        ih (fun x hx => h x (List.mem_cons_of_mem a hx))]
      simp [Nat.add_comm]

/-! ## Claim C1 -/

/-- Claim C1 (counterexample): a 200-row dataset with batch size 100
does NOT yield `200/100 + 1 = 3` insert operations with an empty tail
`[200:200)`.  The loop guard is strict (`(i+1)*B < N`), so the code
issues exactly the two batches `[0:100)` and `[100:200)`, the second
being the final (tail) insert. -/
theorem claim_C1_counterexample :
    uploadBatches 100 200 (by decide) = [(0, 100), (100, 200)] ∧
    (uploadBatches 100 200 (by decide)).length ≠ 200 / 100 + 1 ∧
    (uploadBatches 100 200 (by decide)).getLast? ≠ some (200, 200) := by
  have h : uploadBatches 100 200 (by decide) = [(0, 100), (100, 200)] := by
    simp [uploadBatches, uploadLoop]
  refine ⟨h, ?_, ?_⟩ <;> rw [h] <;> decide

/-- The event trace of `upload_data_to_table`, unfolded. -/
theorem upload_trace_def (df : DataFrame) (B : Nat) (hB : 0 < B) (now : String)
    (u : Bool) (failAt : Nat → Bool) :
    (upload_data_to_table df B hB now u failAt).trace =
      UEvent.connOpen :: (uploadLoopRun B df.nrows hB failAt 0).1
        ++ [UEvent.connClose]
        ++ (if (uploadLoopRun B df.nrows hB failAt 0).2 then
              [UEvent.info "Completed upload of data to table."] else []) := rfl

/-- The completion flag of `upload_data_to_table`, unfolded. -/
theorem upload_completed_def (df : DataFrame) (B : Nat) (hB : 0 < B) (now : String)
    (u : Bool) (failAt : Nat → Bool) :
    (upload_data_to_table df B hB now u failAt).completed =
      (uploadLoopRun B df.nrows hB failAt 0).2 := rfl

/-- Claim C1 (amended): for a dataset of `N` rows and batch size
`B > 0`, `upload_data_to_table` issues `ceil(N/B) = N/B + 1` insert
operations when `N` is not a multiple of `B`; when `N` is a positive
exact multiple of `B` it issues exactly `N/B` insert operations, the
last covering the final full batch `[N-B : N)` (no empty tail is
issued); only for `N = 0` is a single empty insert `[0:0)` issued.  The
insert count in the event trace of a fully successful run equals the
length of the slice list. -/
theorem claim_C1_upload_batch_count (df : DataFrame) (B : Nat) (hB : 0 < B)
    (now : String) (u : Bool) :
    ((upload_data_to_table df B hB now u (fun _ => false)).trace.countP
        UEvent.isInsert = (uploadBatches B df.nrows hB).length) ∧
    (¬ B ∣ df.nrows →
      (uploadBatches B df.nrows hB).length = df.nrows / B + 1) ∧
    (B ∣ df.nrows → 0 < df.nrows →
      (uploadBatches B df.nrows hB).length = df.nrows / B ∧
      (uploadBatches B df.nrows hB).getLast? = some (df.nrows - B, df.nrows)) ∧
    (df.nrows = 0 → uploadBatches B df.nrows hB = [(0, 0)]) := by
  have hmod : df.nrows % B < B := Nat.mod_lt _ hB
  have hqr : df.nrows / B * B + df.nrows % B = df.nrows := by
    rw [Nat.mul_comm]
    exact Nat.div_add_mod df.nrows B
  have hchar := uploadLoop_char B (df.nrows / B) (df.nrows % B) hB hmod 0
  rw [hqr] at hchar
  obtain ⟨q, hq⟩ : ∃ q, df.nrows / B = q := ⟨_, rfl⟩
  obtain ⟨r, hrc⟩ : ∃ r, df.nrows % B = r := ⟨_, rfl⟩
  rw [hq] at hchar hqr ⊢
  rw [hrc] at hchar hmod hqr
  refine ⟨?_, ?_, ?_, ?_⟩
  · -- insert count in the trace of a fully successful run
    have hok := uploadLoopRun_ok B df.nrows hB (fun _ => false) (fun _ => rfl) 0
    rw [upload_trace_def, hok]
    simp only [List.countP_cons, List.countP_append]
    rw [countP_flatMap_singleton _ _ _ (fun p _ => by
      unfold batchEvents
      split <;> rfl)]
    simp [uploadBatches, UEvent.isInsert]
  · -- N not a multiple of B
    intro hdvd
    have hr0 : r ≠ 0 := by
      intro h0
      exact hdvd (Nat.dvd_of_mod_eq_zero (by rw [hrc, h0]))
    rw [if_neg hr0] at hchar
    have h1 : max (q + 1) 1 - 1 - 0 = q := by omega
    have h2 : max 0 (max (q + 1) 1 - 1) = q := by omega
    rw [h1, h2] at hchar
    rw [uploadBatches, hchar]
    simp
  · -- N a positive exact multiple of B
    intro hdvd hpos
    have hr0 : r = 0 := by
      have := Nat.mod_eq_zero_of_dvd hdvd
      omega
    rw [if_pos hr0] at hchar
    have hq1 : 1 ≤ q := by
      rcases Nat.eq_zero_or_pos q with h | h
      · subst h
        rw [Nat.zero_mul] at hqr
        omega
      · exact h
    have h1 : max (q + 0) 1 - 1 - 0 = q - 1 := by omega
    have h2 : max 0 (max (q + 0) 1 - 1) = q - 1 := by omega
    rw [h1, h2] at hchar
    have hqB : q * B = df.nrows := by omega
    constructor
    · rw [uploadBatches, hchar]
      simp only [List.length_append, List.length_map, List.length_range',
        List.length_singleton]
      omega
    · rw [uploadBatches, hchar, List.getLast?_concat]
      have hlast : (q - 1) * B = df.nrows - B := by
        rw [Nat.sub_mul, one_mul, hqB]
      rw [hlast]
  · -- N = 0
    intro h0
    rw [uploadBatches, uploadLoop, dif_neg (by omega)]
    simp [h0]

/-- Witness for claim C1's theorem at a concrete input: 250 rows with
batch size 100 give `250/100 + 1 = 3` inserts. -/
theorem claim_C1_witness :
    (0 : Nat) < 100 ∧ ¬ (100 ∣ 250) ∧
    (uploadBatches 100 250 (by decide)).length = 250 / 100 + 1 :=
  ⟨by decide, by decide,
   (claim_C1_upload_batch_count ⟨["A"], 250, fun _ _ => "v"⟩ 100 (by decide)
     "TS" false).2.1 (by decide)⟩

/-! ## Claim C6 -/

/-- Claim C6 (confirmed): every call to `upload_data_to_table` opens a
single Connection Scope for the whole call (the trace starts with the
one `connOpen` and contains exactly one `connOpen` and one `connClose`);
when no batch fails, each batch's insert runs inside its own transaction
committed before the next batch starts (the trace is the concatenation
of one begin/insert/commit block per slice); and a failure in batch `k`
leaves exactly the blocks for batches `0, ..., k-1` committed, with no
rollback event anywhere and the call reporting failure. -/
theorem claim_C6_upload_transactions (df : DataFrame) (B : Nat) (hB : 0 < B)
    (now : String) (u : Bool) (failAt : Nat → Bool) :
    ((upload_data_to_table df B hB now u failAt).trace.head? =
        some UEvent.connOpen ∧
     (upload_data_to_table df B hB now u failAt).trace.countP
        UEvent.isConnOpen = 1 ∧
     (upload_data_to_table df B hB now u failAt).trace.countP
        UEvent.isConnClose = 1) ∧
    ((∀ j, failAt j = false) →
      (upload_data_to_table df B hB now u failAt).trace =
        UEvent.connOpen ::
          ((uploadBatches B df.nrows hB).flatMap (batchEvents df.nrows))
          ++ [UEvent.connClose,
              UEvent.info "Completed upload of data to table."] ∧
      (upload_data_to_table df B hB now u failAt).completed = true) ∧
    (∀ k, failAt k = true → (∀ j, j < k → failAt j = false) →
      (k = 0 ∨ k * B < df.nrows) →
      (upload_data_to_table df B hB now u failAt).trace =
        UEvent.connOpen :: ((List.range k).flatMap (fullBatchEvents B))
          ++ [UEvent.notice (k * B)
                (if (k + 1) * B < df.nrows then (k + 1) * B - 1 else df.nrows),
              UEvent.txBegin,
              UEvent.insert (k * B) (min ((k + 1) * B) df.nrows),
              UEvent.connClose] ∧
      (upload_data_to_table df B hB now u failAt).completed = false) ∧
    UEvent.txRollback ∉ (upload_data_to_table df B hB now u failAt).trace := by
  have hev := uploadLoopRun_events B df.nrows hB failAt 0
  have hzero : ∀ p : UEvent → Bool, (∀ e, e.isBatchEvent = true → p e = false) →
      (uploadLoopRun B df.nrows hB failAt 0).1.countP p = 0 := by
    intro p hp
    exact List.countP_eq_zero.mpr (fun e he => by simp [hp e (hev e he)])
  refine ⟨⟨rfl, ?_, ?_⟩, ?_, ?_, ?_⟩
  · -- exactly one connOpen
    rw [upload_trace_def, List.countP_append, List.countP_append, List.countP_cons,
      hzero UEvent.isConnOpen (fun e h => (batchEvent_not_conn e h).1)]
    cases hb : (uploadLoopRun B df.nrows hB failAt 0).2 <;>
      simp [hb, UEvent.isConnOpen]
  · -- exactly one connClose
    rw [upload_trace_def, List.countP_append, List.countP_append, List.countP_cons,
      hzero UEvent.isConnClose (fun e h => (batchEvent_not_conn e h).2.1)]
    cases hb : (uploadLoopRun B df.nrows hB failAt 0).2 <;>
      simp [hb, UEvent.isConnClose]
  · -- no failure: one committed block per batch
    intro hf
    have hok := uploadLoopRun_ok B df.nrows hB failAt hf 0
    constructor
    · rw [upload_trace_def, hok]
      simp [uploadBatches]
    · rw [upload_completed_def, hok]
  · -- first failure at batch k
    intro k hk hprior hreach
    have hreach2 : 0 = k ∨ k * B < df.nrows := by
      rcases hreach with h | h
      · exact Or.inl h.symm
      · exact Or.inr h
    have hfail := uploadLoopRun_fail B df.nrows hB failAt k hk hprior 0
      (Nat.zero_le k) hreach2
    constructor
    · rw [upload_trace_def, hfail, List.range_eq_range']
      simp
    · rw [upload_completed_def, hfail]
  · -- no rollback event on any path
    intro hmem
    rw [upload_trace_def] at hmem
    rcases List.mem_append.mp hmem with h1 | h2
    · rcases List.mem_cons.mp h1 with h | h'
      · contradiction
      · rcases List.mem_append.mp h' with h | h
        · exact (batchEvent_not_conn _ (hev _ h)).2.2.1 rfl
        · simp at h
    · cases hb : (uploadLoopRun B df.nrows hB failAt 0).2 <;> simp [hb] at h2

/-- Witness for claim C6's theorem at a concrete input: five rows,
batch size two, second batch failing. -/
theorem claim_C6_witness :
    (0 : Nat) < 2 ∧
    (fun j => j == 1) 1 = true ∧
    (∀ j : Nat, j < 1 → (fun j => j == 1) j = false) ∧
    (1 = 0 ∨ 1 * 2 < 5) ∧
    (upload_data_to_table ⟨["A"], 5, fun _ _ => "v"⟩ 2 (by decide) "TS" true
      (fun j => j == 1)).completed = false :=
  ⟨by decide, by decide, by decide, by decide,
   ((claim_C6_upload_transactions ⟨["A"], 5, fun _ _ => "v"⟩ 2 (by decide) "TS"
       true (fun j => j == 1)).2.2.1 1 (by decide) (by decide)
     (by decide)).2⟩

end BISCodeHelpers
